import Mathlib

/-!
Verification of the SMS gateway repository: a shallow embedding of the
modem protocol driver and batch sender (send_reminder_sms.py), the
connectivity monitor loop (network_monitor.py), and the sandboxed command
executor (core/executor.py with core/commands.py and core/config.py),
together with theorems settling the specification claims.
-/

/-! ## String helpers

Python substring membership (`w in txt`) and the message-reference regex
search are modelled on character lists. -/

/-- True when the first list is a prefix of the second (character lists). -/
def headMatches : List Char → List Char → Bool
  | [], _ => true
  | _ :: _, [] => false
  | a :: as, b :: bs => a == b && headMatches as bs

/-- True when the needle occurs as a contiguous sublist of the haystack. -/
def subOccurs (needle : List Char) : List Char → Bool
  | [] => needle.isEmpty
  | b :: rest => headMatches needle (b :: rest) || subOccurs needle rest

/-- Python `needle in hay` for strings. -/
def occursIn (needle hay : String) : Bool :=
  subOccurs needle.data hay.data

/-- Python regex `\s` on the ASCII range (space, tab, newline, return, vertical tab, form feed). -/
def isWs (c : Char) : Bool :=
  c == ' ' || c == '\t' || c == '\n' || c == '\r' || c == '\x0b' || c == '\x0c'

/-- Try to match the regex `\+CMGS:\s*(\d+)` at the head of the list,
returning the digit group. -/
def refMatchAt : List Char → Option (List Char)
  | '+' :: 'C' :: 'M' :: 'G' :: 'S' :: ':' :: rest =>
    let ds := (rest.dropWhile isWs).takeWhile Char.isDigit
    if ds.isEmpty then none else some ds
  | _ => none

/-- Scan every position, as `re.search` does, for the first match of
`\+CMGS:\s*(\d+)`. -/
def findRefAux : List Char → Option (List Char)
  | [] => none
  | c :: rest =>
    match refMatchAt (c :: rest) with
    | some ds => some ds
    | none => findRefAux rest

/-- `re.search(r"\+CMGS:\s*(\d+)", resp)` returning group 1. -/
def extractRef (resp : String) : Option String :=
  (findRefAux resp.data).map (fun ds => String.mk ds)

/-- Lines 156-157 of send_reminder_sms.py: the logged message reference,
the matched digit group when present, else `?`. -/
def cmgsRef (resp : String) : String :=
  (extractRef resp).getD "?"

/-! ## Modem protocol driver (send_reminder_sms.py)

The serial line is modelled by the list of chunks successive polls of
`ser.read(ser.in_waiting)` deliver; the end of the list is the overall
timeout of the poll loop. An empty chunk is a poll that saw no data. -/

/-- The accumulation loop of `read_until` (lines 38-52): append each chunk,
return `(True, txt)` as soon as a wanted token occurs in the accumulated
text, `(False, txt)` when `ERROR` occurs, and `(False, buf)` at timeout. -/
def readUntilGo (want : List String) : String → List String → Bool × String
  | buf, [] => (false, buf)
  | buf, c :: rest =>
    if c = "" then readUntilGo want buf rest
    else
      let txt := buf ++ c
      if want.any (fun w => occursIn w txt) then (true, txt)
      else if occursIn "ERROR" txt then (false, txt)
      else readUntilGo want txt rest

/-- `read_until(ser, want_any_of, timeout)` over the chunk stream. -/
def read_until (want : List String) (chunks : List String) : Bool × String :=
  readUntilGo want "" chunks

/-- `send_at` (lines 54-65): write the command, read until the expected
token or `ERROR`, and succeed iff the read succeeded and the expected
token is in the response. The chunk stream is the modem's reply. -/
def send_at (chunks : List String) (expect : String) : Bool × String :=
  let r := read_until [expect, "ERROR"] chunks
  (r.fst && occursIn expect r.snd, r.snd)

/-- The serial traffic one `send_sms_to_number` call sees: the reply to
`AT+CMGS="number"` and the reply after the payload and Ctrl+Z. -/
structure SmsExchange where
  promptChunks : List String
  finalChunks : List String
deriving DecidableEq, Repr

/-- `send_sms_to_number` (lines 143-163): require the `>` prompt, else
return `(False, resp)`; transmit, read until `+CMGS`, `OK` or `ERROR`,
and report delivered iff both `+CMGS` and `OK` occur in the response. -/
def send_sms_to_number (ex : SmsExchange) : Bool × String :=
  let p := send_at ex.promptChunks ">"
  if !p.fst then (false, p.snd)
  else
    let r := read_until ["+CMGS", "OK", "ERROR"] ex.finalChunks
    if occursIn "+CMGS" r.snd && occursIn "OK" r.snd then (true, r.snd)
    else (false, r.snd)

/-! ## Handshake and batch send (send_reminder_sms.py main path) -/

/-- The modem's replies to each fixed command of `handshake_and_prepare`
(lines 95-141), one chunk stream per command sent; list-valued fields
give the stream of each successive attempt of a retried command. -/
structure HandshakeEnv where
  atResp : List (List String)
  echoResp : List String
  cmeeResp : List String
  cpinResp : List String
  pinSetResp : List String
  pinPollResp : List (List String)
  cregResp : List String
  copsResp : List String
  cmgfResp : List String
  cscsResp : List String
  csmpResp : List String
deriving Repr

/-- The `for _ in range(3)` AT handshake loop (lines 97-101): succeed as
soon as one attempt gets `OK`. -/
def tryAT : Nat → List (List String) → Bool
  | 0, _ => false
  | n + 1, rs => (send_at (rs.headD []) "OK").fst || tryAT n rs.tail

/-- The `for _ in range(20)` SIM-ready poll (lines 122-126): succeed as
soon as one `AT+CPIN?` reply contains `READY`. -/
def pollReady : Nat → List (List String) → Bool
  | 0, _ => false
  | n + 1, rs => occursIn "READY" (send_at (rs.headD []) "OK").snd || pollReady n rs.tail

/-- `handshake_and_prepare` (lines 95-141) as the exit code it raises via
`sys.exit`, `none` when the session reaches the ready state. Best-effort
commands (ATE0, CMEE, CREG, COPS, CSCS, CSMP) are sent and their results
discarded, as in the source. -/
def handshake_and_prepare (env : HandshakeEnv) (sim_pin : String) : Option Nat :=
  if !tryAT 3 env.atResp then some 3
  else
    let _ := send_at env.echoResp "OK"
    let _ := send_at env.cmeeResp "OK"
    let c := send_at env.cpinResp "OK"
    let pinStep : Option Nat :=
      if occursIn "SIM PIN" c.snd then
        if sim_pin = "" then some 4
        else
          let p := send_at env.pinSetResp "OK"
          if !p.fst then some 4
          else if !pollReady 20 env.pinPollResp then some 4
          else none
      else none
    match pinStep with
    | some code => some code
    | none =>
      let _ := send_at env.cregResp "OK"
      let _ := send_at env.copsResp "OK"
      let m := send_at env.cmgfResp "OK"
      if !m.fst then some 5
      else
        let _ := send_at env.cscsResp "OK"
        let _ := send_at env.csmpResp "OK"
        none

/-- The configuration main reads from sms_config.ini (lines 172-178). -/
structure SmsConfig where
  recipients : List String
  reminder_message : String
  delay_between : ℚ
  sim_pin : String

/-- The external world of one run: whether the serial port opens, the
handshake traffic, and the per-send serial traffic indexed by the
position of the recipient in the list. -/
structure SerialEnv where
  openOk : Bool
  handshake : HandshakeEnv
  sends : Nat → SmsExchange

/-- The send loop of main (lines 191-196): one `send_sms_to_number` per
recipient in order, sleeping `max(0.0, delay_between)` after each send
except the last. Returns the per-recipient outcomes and the list of
sleep durations performed. -/
def batchSend (delay : ℚ) (modem : Nat → SmsExchange) : List String → Nat → List (String × Bool) × List ℚ
  | [], _ => ([], [])
  | r :: rest, i =>
    let ok := (send_sms_to_number (modem i)).fst
    match rest with
    | [] => ([(r, ok)], [])
    | _ :: _ =>
      let t := batchSend delay modem rest (i + 1)
      ((r, ok) :: t.fst, max 0 delay :: t.snd)

/-- The validation and setup phase of main (lines 180-189): the exit code
of the first failing step (missing recipients or message, serial open
failure, handshake failure), `none` when sending begins. -/
def setup_exit (cfg : SmsConfig) (env : SerialEnv) : Option Nat :=
  if cfg.recipients.isEmpty then some 2
  else if cfg.reminder_message = "" then some 2
  else if !env.openOk then some 2
  else handshake_and_prepare env.handshake cfg.sim_pin

/-- `main` of send_reminder_sms.py (lines 165-214): exit code, the
per-recipient outcomes, and the sleeps performed. A setup failure exits
with its code before any send; otherwise all recipients are attempted
and the exit code is 0 (all delivered), 8 (none) or 9 (partial). -/
def sms_main (cfg : SmsConfig) (env : SerialEnv) : Nat × List (String × Bool) × List ℚ :=
  if cfg.recipients.isEmpty then (2, [], [])
  else if cfg.reminder_message = "" then (2, [], [])
  else if !env.openOk then (2, [], [])
  else
    match handshake_and_prepare env.handshake cfg.sim_pin with
    | some code => (code, [], [])
    | none =>
      let b := batchSend cfg.delay_between env.sends cfg.recipients 0
      let successes := (b.fst.filter (fun x => x.snd)).length
      if successes = cfg.recipients.length then (0, b.fst, b.snd)
      else if successes = 0 then (8, b.fst, b.snd)
      else (9, b.fst, b.snd)

/-! ## Connectivity monitor (network_monitor.py) -/

/-- The numeric monitor configuration (lines 100-103). -/
structure MonitorConfig where
  failure_threshold : Nat
  reminder_interval : Nat

/-- The mutable loop state of `main` (lines 110-112): the failure streak,
the outage flag, and the monotonic time of the last reminder or alert. -/
structure MonitorState where
  failure_streak : Nat
  in_outage : Bool
  last_reminder : Nat
deriving DecidableEq, Repr

/-- The notification scripts `run_script` dispatches in one tick. -/
inductive MonitorAction where
  | runClear
  | runNetworkAlert
  | runPowerAlert
  | runReminder
deriving DecidableEq, Repr

/-- One tick's outcome: the next state, the scripts run, and the attempt
counts of the secondary (router) probes issued. -/
structure TickResult where
  state : MonitorState
  actions : List MonitorAction
  router_probes : List Nat
deriving DecidableEq, Repr

/-- One iteration of the monitor loop (lines 121-162). `internet_ok` is
the primary probe's result, `router_ok` the secondary probe's result when
one is issued, `now` the monotonic clock. -/
def monitorTick (cfg : MonitorConfig) (s : MonitorState) (internet_ok router_ok : Bool) (now : Nat) : TickResult :=
  if internet_ok then
    if s.in_outage then
      { state := { failure_streak := 0, in_outage := false, last_reminder := s.last_reminder },
        actions := [.runClear], router_probes := [] }
    else
      { state := { s with failure_streak := 0 }, actions := [], router_probes := [] }
  else
    let streak := s.failure_streak + 1
    if !s.in_outage && decide (cfg.failure_threshold ≤ streak) then
      if router_ok then
        { state := { failure_streak := streak, in_outage := true, last_reminder := now },
          actions := [.runNetworkAlert], router_probes := [1] }
      else
        { state := { failure_streak := streak, in_outage := true, last_reminder := now },
          actions := [.runPowerAlert], router_probes := [1] }
    else if s.in_outage then
      if cfg.reminder_interval ≤ now - s.last_reminder then
        { state := { failure_streak := streak, in_outage := true, last_reminder := now },
          actions := [.runReminder], router_probes := [] }
      else
        { state := { s with failure_streak := streak }, actions := [], router_probes := [] }
    else
      { state := { s with failure_streak := streak }, actions := [], router_probes := [] }

/-! ## Sandboxed command executor (core/executor.py, core/commands.py, core/config.py) -/

/-- The execution-related settings of core/config.py with their defaults. -/
structure Settings where
  MAX_CONCURRENT_EXECUTIONS : Nat := 3
  DEFAULT_TIMEOUT : Int := 30
  MAX_TIMEOUT : Int := 120

/-- The settings object with every default of core/config.py. -/
def defaultSettings : Settings := {}

/-- The Python types an argument schema can expect. -/
inductive PyType where
  | str
  | int
deriving DecidableEq, Repr

/-- The argument values a caller passes. -/
inductive PyVal where
  | str (s : String)
  | int (n : Int)
deriving DecidableEq, Repr

/-- Python `isinstance(value, expected_type)` on the modelled values. -/
def PyVal.isinstance : PyVal → PyType → Bool
  | .str _, .str => true
  | .int _, .int => true
  | _, _ => false

/-- `CommandDefinition` of core/commands.py (lines 9-15). -/
structure CommandDefinition where
  name : String
  script_path : String
  description : String
  timeout_default : Int := 30
  args_schema : List (String × PyType) := []
deriving DecidableEq, Repr

/-- `CommandDefinition.validate_args` (lines 17-30): with an empty schema
the argument map must be empty; otherwise each schema key present in the
arguments must have the expected type. -/
def CommandDefinition.validate_args (cmd : CommandDefinition) (args : List (String × PyVal)) : Bool :=
  if cmd.args_schema.isEmpty then args.isEmpty
  else cmd.args_schema.all fun kt =>
    match args.lookup kt.fst with
    | some v => v.isinstance kt.snd
    | none => true

/-- The command registry: the whitelist mapping names to definitions. -/
structure CommandRegistry where
  commands : List (String × CommandDefinition)

/-- `CommandRegistry.get_command` (lines 94-96). -/
def get_command (reg : CommandRegistry) (name : String) : Option CommandDefinition :=
  reg.commands.lookup name

/-- `CommandRegistry.validate_command_args` (lines 106-118). -/
def validate_command_args (reg : CommandRegistry) (name : String) (args : List (String × PyVal)) : Bool × Option String :=
  match get_command reg name with
  | none => (false, some ("Command '" ++ name ++ "' not found"))
  | some cmd =>
    if !cmd.validate_args args then (false, some ("Invalid arguments for command '" ++ name ++ "'"))
    else (true, none)

/-- The whitelist `_initialize_commands` builds (lines 44-84). -/
def smsRegistry : CommandRegistry :=
  { commands :=
      [ ("send_alert_power",
         { name := "send_alert_power", script_path := "send_alert_power_sms.py",
           description := "Send power outage alert SMS to configured recipients",
           timeout_default := 60, args_schema := [] }),
        ("send_alert_network",
         { name := "send_alert_network", script_path := "send_alert_network_sms.py",
           description := "Send network outage alert SMS to configured recipients",
           timeout_default := 60, args_schema := [] }),
        ("send_reminder",
         { name := "send_reminder", script_path := "send_reminder_sms.py",
           description := "Send reminder SMS about ongoing outage",
           timeout_default := 60, args_schema := [] }),
        ("send_clear",
         { name := "send_clear", script_path := "send_clear_sms.py",
           description := "Send clear/recovery SMS notification",
           timeout_default := 60, args_schema := [] }) ] }

/-- `ExecutionResult` of core/executor.py (lines 18-28), without the
wall-clock fields (timestamps and duration), which no claim concerns. -/
structure ExecutionResult where
  success : Bool
  stdout : String
  stderr : String
  exit_code : Int
  error_message : Option String
deriving DecidableEq, Repr

/-- What the spawned child does: completes with an exit code and output,
exceeds the effective timeout, or the spawn itself raises. -/
inductive ChildBehavior where
  | completes (exit_code : Int) (stdout stderr : String)
  | timesOut
  | spawnError (msg : String)
deriving DecidableEq, Repr

/-- The process-lifecycle side effects `execute_command` performs. -/
inductive ProcAction where
  | spawn
  | kill
  | waitTeardown
deriving DecidableEq, BEq, Repr

/-- The observable outcome of one `execute_command` call: the returned
result, the child-process actions performed, and the timeout value handed
to the bounded wait when one happens. -/
structure ExecOutcome where
  result : ExecutionResult
  actions : List ProcAction
  waited_timeout : Option Int
deriving DecidableEq, Repr

/-- `SafeExecutor._validate_timeout` (lines 58-64): below 1 fall back to
the configured default, above the maximum clamp to the maximum. -/
def validate_timeout (st : Settings) (timeout : Int) : Int :=
  if timeout < 1 then st.DEFAULT_TIMEOUT
  else if timeout > st.MAX_TIMEOUT then st.MAX_TIMEOUT
  else timeout

/-- Following the spec's words only (section 4.3 step 2), for comparison
with `validate_timeout`: clamp(timeoutOverride ?? defaultTimeout, 1, MAX_TIMEOUT). -/
def spec_clamp_timeout (st : Settings) (timeout : Int) : Int :=
  max 1 (min timeout st.MAX_TIMEOUT)

/-- `SafeExecutor.execute_command` (lines 84-239): resolve the definition,
validate the arguments, compute the effective timeout, then run the child.
Timeout kills the process and awaits teardown; a completed child maps its
exit code to success; a spawn fault is caught and converted to a result. -/
def execute_command (st : Settings) (reg : CommandRegistry) (command_name : String)
    (args : List (String × PyVal)) (timeout : Option Int) (child : ChildBehavior) : ExecOutcome :=
  match get_command reg command_name with
  | none =>
    { result := { success := false, stdout := "", stderr := "", exit_code := -1,
                  error_message := some ("Command '" ++ command_name ++ "' not found in registry") },
      actions := [], waited_timeout := none }
  | some cmd_def =>
    let v := validate_command_args reg command_name args
    if !v.fst then
      { result := { success := false, stdout := "", stderr := "", exit_code := -1,
                    error_message := v.snd },
        actions := [], waited_timeout := none }
    else
      let exec_timeout := validate_timeout st (timeout.getD cmd_def.timeout_default)
      match child with
      | .spawnError msg =>
        { result := { success := false, stdout := "", stderr := msg, exit_code := -1,
                      error_message := some ("Execution error: " ++ msg) },
          actions := [], waited_timeout := none }
      | .timesOut =>
        { result := { success := false, stdout := "", stderr := "", exit_code := -1,
                      error_message := some ("Command exceeded timeout of " ++ toString exec_timeout ++ "s") },
          actions := [.spawn, .kill, .waitTeardown], waited_timeout := some exec_timeout }
      | .completes ec out err =>
        { result := { success := ec == 0, stdout := out, stderr := err, exit_code := ec,
                      error_message := if ec == 0 then none else some ("Command failed with exit code " ++ toString ec) },
          actions := [.spawn], waited_timeout := some exec_timeout }

/-! ## Concrete fixtures used by the witnesses -/

/-- A modem session that handshakes cleanly: `OK` to the first `AT`, no
PIN required, text mode accepted. -/
def hsReady : HandshakeEnv :=
  { atResp := [["\r\nOK\r\n"]], echoResp := ["OK"], cmeeResp := ["OK"],
    cpinResp := ["+CPIN: READY\r\nOK"], pinSetResp := [], pinPollResp := [],
    cregResp := ["OK"], copsResp := ["OK"], cmgfResp := ["OK"],
    cscsResp := ["OK"], csmpResp := ["OK"] }

/-- A send that is acknowledged with message reference 42 and `OK`. -/
def exOk42 : SmsExchange :=
  { promptChunks := ["\r\n> "], finalChunks := ["\r\n+CMGS: 42\r\n\r\nOK\r\n"] }

/-- A send whose `AT+CMGS` command never gets the `>` prompt. -/
def exNoPrompt : SmsExchange :=
  { promptChunks := ["\r\nERROR\r\n"], finalChunks := [] }

/-- Three recipients with a two-second inter-send delay. -/
def cfgThree : SmsConfig :=
  { recipients := ["111", "222", "333"], reminder_message := "reminder",
    delay_between := 2, sim_pin := "" }

/-- Three recipients with a negative configured inter-send delay. -/
def cfgThreeNeg : SmsConfig :=
  { recipients := ["111", "222", "333"], reminder_message := "reminder",
    delay_between := -1, sim_pin := "" }

/-- A run where the second recipient gets no prompt and the others are
acknowledged. -/
def envThree : SerialEnv :=
  { openOk := true, handshake := hsReady, sends := fun i => if i = 1 then exNoPrompt else exOk42 }

/-- A run where the serial port fails to open. -/
def envNoSerial : SerialEnv :=
  { openOk := false, handshake := hsReady, sends := fun _ => exOk42 }

/-! ## Helper lemmas -/

/-- Unfolding the batch loop on a list of two or more recipients. -/
theorem batchSend_cons2 (d : ℚ) (modem : Nat → SmsExchange) (r r2 : String)
    (rest : List String) (i : Nat) :
    batchSend d modem (r :: r2 :: rest) i =
      ((r, (send_sms_to_number (modem i)).fst) :: (batchSend d modem (r2 :: rest) (i + 1)).fst,
       max 0 d :: (batchSend d modem (r2 :: rest) (i + 1)).snd) := rfl

/-- The outcomes of the batch loop: each recipient, in order, paired with
the delivered flag of its own exchange. -/
theorem batchSend_fst (d : ℚ) (modem : Nat → SmsExchange) :
    ∀ (l : List String) (i : Nat),
      (batchSend d modem l i).fst =
        (l.enumFrom i).map (fun p => (p.snd, (send_sms_to_number (modem p.fst)).fst))
  | [], _ => rfl
  | [_], _ => rfl
  | r :: r2 :: rest, i => by
    have ih := batchSend_fst d modem (r2 :: rest) (i + 1)
    rw [batchSend_cons2]
    conv_rhs => rw [show List.enumFrom i (r :: r2 :: rest)
      = (i, r) :: List.enumFrom (i + 1) (r2 :: rest) from rfl]
    simp only [List.map_cons]
    rw [ih]

/-- The sleeps of the batch loop: one `max 0 delay` between consecutive
recipients, none after the last. -/
theorem batchSend_snd (d : ℚ) (modem : Nat → SmsExchange) :
    ∀ (l : List String) (i : Nat),
      (batchSend d modem l i).snd = List.replicate (l.length - 1) (max 0 d)
  | [], _ => rfl
  | [_], _ => rfl
  | r :: r2 :: rest, i => by
    have ih := batchSend_snd d modem (r2 :: rest) (i + 1)
    rw [batchSend_cons2]
    simp only [List.length_cons]
    rw [ih]
    simp [List.replicate]

/-- A handshake failure exits with 3 (unresponsive modem), 4 (PIN) or 5
(text mode). -/
theorem handshake_codes (env : HandshakeEnv) (pin : String) (c : Nat)
    (h : handshake_and_prepare env pin = some c) : c = 3 ∨ c = 4 ∨ c = 5 := by
  unfold handshake_and_prepare at h
  split_ifs at h <;> simp_all <;> split_ifs at h <;> simp_all

/-- A setup failure makes main exit with that code before any send. -/
theorem sms_main_setup (cfg : SmsConfig) (env : SerialEnv) (c : Nat)
    (h : setup_exit cfg env = some c) : sms_main cfg env = (c, [], []) := by
  unfold setup_exit at h
  unfold sms_main
  split_ifs at h <;> simp_all

/-- When setup succeeds, main runs the batch loop and classifies by the
number of delivered recipients. -/
theorem sms_main_send (cfg : SmsConfig) (env : SerialEnv)
    (h : setup_exit cfg env = none) :
    sms_main cfg env =
      ((if ((batchSend cfg.delay_between env.sends cfg.recipients 0).fst.filter (fun x => x.snd)).length = cfg.recipients.length then 0
        else if ((batchSend cfg.delay_between env.sends cfg.recipients 0).fst.filter (fun x => x.snd)).length = 0 then 8
        else 9),
       (batchSend cfg.delay_between env.sends cfg.recipients 0).fst,
       (batchSend cfg.delay_between env.sends cfg.recipients 0).snd) := by
  unfold setup_exit at h
  unfold sms_main
  split_ifs at h
  simp_all
  split_ifs
  all_goals rfl

/-- The batch loop produces one outcome per recipient. -/
theorem batchSend_length (d : ℚ) (modem : Nat → SmsExchange) (l : List String) (i : Nat) :
    (batchSend d modem l i).fst.length = l.length := by
  rw [batchSend_fst]
  simp [List.enumFrom_length]

/-! ## Claims about the connectivity monitor -/

/-- Claim C3: the outage flag turns on only in a tick where the failure
streak (after the increment of that tick) has reached the failure
threshold, and turns off only in a tick whose primary probe reported
reachable. -/
theorem monitor_outage_transitions (cfg : MonitorConfig) (s : MonitorState)
    (internet_ok router_ok : Bool) (now : Nat) :
    (s.in_outage = false →
      (monitorTick cfg s internet_ok router_ok now).state.in_outage = true →
      internet_ok = false ∧
      cfg.failure_threshold ≤ (monitorTick cfg s internet_ok router_ok now).state.failure_streak ∧
      (monitorTick cfg s internet_ok router_ok now).state.failure_streak = s.failure_streak + 1) ∧
    (s.in_outage = true →
      (monitorTick cfg s internet_ok router_ok now).state.in_outage = false →
      internet_ok = true) := by
  unfold monitorTick
  cases internet_ok <;> cases hio : s.in_outage <;>
    simp_all <;> split_ifs <;> simp_all

/-- Claim C3 witness: entering the outage at threshold 4 on the fourth
consecutive failure, and leaving it on a reachable tick. -/
theorem monitor_outage_transitions_witness :
    ((false : Bool) = false ∧
     4 ≤ (monitorTick ⟨4, 300⟩ ⟨3, false, 0⟩ false true 100).state.failure_streak ∧
     (monitorTick ⟨4, 300⟩ ⟨3, false, 0⟩ false true 100).state.failure_streak = 3 + 1) ∧
    (true : Bool) = true :=
  ⟨(monitor_outage_transitions ⟨4, 300⟩ ⟨3, false, 0⟩ false true 100).1 (by decide) (by decide),
   (monitor_outage_transitions ⟨4, 300⟩ ⟨5, true, 0⟩ true false 100).2 (by decide) (by decide)⟩

/-- Claim C4: in a tick where the monitor is not in outage and the streak
reaches the threshold while the primary is unreachable, exactly one
single-attempt router probe is issued, the network alert runs when it
succeeds and the power alert when it fails, the outage state is entered,
and the last-reminder clock is set to now. -/
theorem monitor_threshold_tick (cfg : MonitorConfig) (s : MonitorState)
    (router_ok : Bool) (now : Nat)
    (h1 : s.in_outage = false)
    (h2 : cfg.failure_threshold ≤ s.failure_streak + 1) :
    (monitorTick cfg s false router_ok now).router_probes = [1] ∧
    (monitorTick cfg s false router_ok now).actions =
      [if router_ok then .runNetworkAlert else .runPowerAlert] ∧
    (monitorTick cfg s false router_ok now).state.in_outage = true ∧
    (monitorTick cfg s false router_ok now).state.last_reminder = now := by
  unfold monitorTick
  cases router_ok <;> simp_all

/-- Claim C4 witness: with threshold 4 and three prior failures, the
secondary probe result selects the network alert or the power alert. -/
theorem monitor_threshold_tick_witness :
    ((monitorTick ⟨4, 300⟩ ⟨3, false, 0⟩ false true 100).router_probes = [1] ∧
     (monitorTick ⟨4, 300⟩ ⟨3, false, 0⟩ false true 100).actions =
       [if true then .runNetworkAlert else .runPowerAlert] ∧
     (monitorTick ⟨4, 300⟩ ⟨3, false, 0⟩ false true 100).state.in_outage = true ∧
     (monitorTick ⟨4, 300⟩ ⟨3, false, 0⟩ false true 100).state.last_reminder = 100) ∧
    (monitorTick ⟨4, 300⟩ ⟨3, false, 0⟩ false false 100).actions =
      [if false then .runNetworkAlert else .runPowerAlert] :=
  ⟨monitor_threshold_tick ⟨4, 300⟩ ⟨3, false, 0⟩ true 100 (by decide) (by decide),
   (monitor_threshold_tick ⟨4, 300⟩ ⟨3, false, 0⟩ false 100 (by decide) (by decide)).2.1⟩

/-- Claim C9: a reachable primary probe while in outage clears the outage,
resets the streak to 0 and runs exactly the clear action; a reachable
probe outside an outage runs nothing and resets the streak to 0. -/
theorem monitor_reachable_tick (cfg : MonitorConfig) (s : MonitorState)
    (router_ok : Bool) (now : Nat) :
    (s.in_outage = true →
      (monitorTick cfg s true router_ok now).state.in_outage = false ∧
      (monitorTick cfg s true router_ok now).state.failure_streak = 0 ∧
      (monitorTick cfg s true router_ok now).actions = [.runClear]) ∧
    (s.in_outage = false →
      (monitorTick cfg s true router_ok now).actions = [] ∧
      (monitorTick cfg s true router_ok now).state.failure_streak = 0) := by
  unfold monitorTick
  cases hio : s.in_outage <;> simp_all

/-- Claim C9 witness: a reachable tick during an outage emits one clear,
and a reachable tick in the stable state emits nothing. -/
theorem monitor_reachable_tick_witness :
    ((monitorTick ⟨4, 300⟩ ⟨7, true, 50⟩ true false 100).state.in_outage = false ∧
     (monitorTick ⟨4, 300⟩ ⟨7, true, 50⟩ true false 100).state.failure_streak = 0 ∧
     (monitorTick ⟨4, 300⟩ ⟨7, true, 50⟩ true false 100).actions = [.runClear]) ∧
    ((monitorTick ⟨4, 300⟩ ⟨2, false, 0⟩ true false 100).actions = [] ∧
     (monitorTick ⟨4, 300⟩ ⟨2, false, 0⟩ true false 100).state.failure_streak = 0) :=
  ⟨(monitor_reachable_tick ⟨4, 300⟩ ⟨7, true, 50⟩ false 100).1 (by decide),
   (monitor_reachable_tick ⟨4, 300⟩ ⟨2, false, 0⟩ false 100).2 (by decide)⟩

/-! ## Claims about the modem driver and the batch sender -/

/-- Claim C2 counterexample: a final response containing the `+CMGS`
reference token but no `OK` yet is reported as not delivered, so
delivered is not equivalent to the presence of the `+CMGS` token. -/
theorem sms_delivered_claim_counterexample :
    occursIn "+CMGS"
      (send_sms_to_number { promptChunks := ["> "], finalChunks := ["+CMGS: 7"] }).snd = true ∧
    (send_sms_to_number { promptChunks := ["> "], finalChunks := ["+CMGS: 7"] }).fst = false := by
  decide

/-- Claim C2 as amended: once the prompt was obtained, delivered is true
iff the final response contains both the `+CMGS` token and the `OK`
token. -/
theorem sms_delivered_iff (ex : SmsExchange)
    (h : (send_at ex.promptChunks ">").fst = true) :
    ((send_sms_to_number ex).fst = true ↔
      (occursIn "+CMGS" (send_sms_to_number ex).snd = true ∧
       occursIn "OK" (send_sms_to_number ex).snd = true)) := by
  unfold send_sms_to_number
  simp only [h, Bool.not_true, Bool.false_eq_true, if_false]
  split_ifs with hc
  · simp_all
  · simp_all

/-- Claim C2 witness: the spec example, a `+CMGS: 42` acknowledgment
followed by `OK`, is delivered with message reference 42. -/
theorem sms_delivered_iff_witness :
    (send_at exOk42.promptChunks ">").fst = true ∧
    (send_sms_to_number exOk42).fst = true ∧
    cmgsRef (send_sms_to_number exOk42).snd = "42" :=
  ⟨by decide, (sms_delivered_iff exOk42 (by decide)).mpr (by decide), by decide⟩

/-- Claim C7: every recipient of the batch is attempted with its own
exchange regardless of earlier failures, a missing prompt makes that one
send report not delivered with the raw response, and a batch with some
but not all deliveries exits as partial success (9). -/
theorem batch_prompt_failure_isolated (cfg : SmsConfig) (env : SerialEnv)
    (h : setup_exit cfg env = none) :
    (sms_main cfg env).2.1 =
      (cfg.recipients.enumFrom 0).map
        (fun p => (p.snd, (send_sms_to_number (env.sends p.fst)).fst)) ∧
    (∀ ex : SmsExchange, (send_at ex.promptChunks ">").fst = false →
       send_sms_to_number ex = (false, (send_at ex.promptChunks ">").snd)) ∧
    (0 < ((sms_main cfg env).2.1.filter (fun x => x.snd)).length →
     ((sms_main cfg env).2.1.filter (fun x => x.snd)).length < cfg.recipients.length →
     (sms_main cfg env).1 = 9) := by
  have hm := sms_main_send cfg env h
  refine ⟨?_, ?_, ?_⟩
  · rw [hm]
    exact batchSend_fst cfg.delay_between env.sends cfg.recipients 0
  · intro ex hp
    unfold send_sms_to_number
    simp [hp]
  · rw [hm]
    dsimp only
    intro h1 h2
    split_ifs with hA hB
    · omega
    · omega
    · rfl

/-- Claim C7 witness: three recipients where only the second misses the
prompt give outcomes for all three and a partial-success exit. -/
theorem batch_prompt_failure_isolated_witness :
    (sms_main cfgThree envThree).2.1 =
      (cfgThree.recipients.enumFrom 0).map
        (fun p => (p.snd, (send_sms_to_number (envThree.sends p.fst)).fst)) ∧
    (sms_main cfgThree envThree).1 = 9 := by
  have h := batch_prompt_failure_isolated cfgThree envThree (by decide)
  exact ⟨h.1, h.2.2 (by decide) (by decide)⟩

/-- Claim C8: a setup failure exits before any send with a code in 2..5;
after a clean setup the exit code is 0 exactly for full delivery, 8
exactly for no delivery, 9 exactly for partial delivery. -/
theorem sms_exit_code_contract (cfg : SmsConfig) (env : SerialEnv)
    (hne : cfg.recipients ≠ []) :
    (∀ c, setup_exit cfg env = some c →
       sms_main cfg env = (c, [], []) ∧ (c = 2 ∨ c = 3 ∨ c = 4 ∨ c = 5)) ∧
    (setup_exit cfg env = none →
       ((sms_main cfg env).1 = 0 ∨ (sms_main cfg env).1 = 8 ∨ (sms_main cfg env).1 = 9) ∧
       ((sms_main cfg env).1 = 0 ↔
         ((sms_main cfg env).2.1.filter (fun x => x.snd)).length = cfg.recipients.length) ∧
       ((sms_main cfg env).1 = 8 ↔
         ((sms_main cfg env).2.1.filter (fun x => x.snd)).length = 0) ∧
       ((sms_main cfg env).1 = 9 ↔
         (0 < ((sms_main cfg env).2.1.filter (fun x => x.snd)).length ∧
          ((sms_main cfg env).2.1.filter (fun x => x.snd)).length < cfg.recipients.length))) := by
  constructor
  · intro c hc
    refine ⟨sms_main_setup cfg env c hc, ?_⟩
    unfold setup_exit at hc
    split_ifs at hc
    · left
      exact (Option.some_inj.mp hc).symm
    · left
      exact (Option.some_inj.mp hc).symm
    · left
      exact (Option.some_inj.mp hc).symm
    · right
      exact handshake_codes env.handshake cfg.sim_pin c hc
  · intro hn
    have hm := sms_main_send cfg env hn
    have hlen : (batchSend cfg.delay_between env.sends cfg.recipients 0).fst.length
        = cfg.recipients.length := batchSend_length cfg.delay_between env.sends cfg.recipients 0
    have hsle : ((batchSend cfg.delay_between env.sends cfg.recipients 0).fst.filter
        (fun x => x.snd)).length ≤ cfg.recipients.length := by
      rw [← hlen]
      exact List.length_filter_le _ _
    have hpos : 0 < cfg.recipients.length := List.length_pos.mpr hne
    rw [hm]
    dsimp only
    split_ifs with hA hB
    · refine ⟨Or.inl rfl, ?_, ?_, ?_⟩ <;> constructor <;> intro h' <;>
        first | omega | exact h'.elim
    · refine ⟨Or.inr (Or.inl rfl), ?_, ?_, ?_⟩ <;> constructor <;> intro h' <;>
        first | omega | exact h'.elim
    · refine ⟨Or.inr (Or.inr rfl), ?_, ?_, ?_⟩ <;> constructor <;> intro h' <;>
        first | omega | exact h'.elim

/-- Claim C8 witness: a failed serial open exits 2 with no sends, and the
partial batch exits 9. -/
theorem sms_exit_code_contract_witness :
    sms_main cfgThree envNoSerial = (2, [], []) ∧
    (sms_main cfgThree envThree).1 = 9 := by
  have h1 := (sms_exit_code_contract cfgThree envNoSerial (by decide)).1 2 (by decide)
  have h2 := (sms_exit_code_contract cfgThree envThree (by decide)).2 (by decide)
  exact ⟨h1.1, h2.2.2.2.mpr (by decide)⟩

/-- Claim C10: the batch sleeps `max 0 delay` exactly between consecutive
recipients, that is `n - 1` times and never after the last, and a
negative configured delay sleeps zero. -/
theorem batch_sleep_layout (cfg : SmsConfig) (env : SerialEnv)
    (h : setup_exit cfg env = none) (_hne : cfg.recipients ≠ []) :
    (sms_main cfg env).2.2 =
      List.replicate (cfg.recipients.length - 1) (max 0 cfg.delay_between) ∧
    (cfg.delay_between < 0 →
      (sms_main cfg env).2.2 = List.replicate (cfg.recipients.length - 1) 0) := by
  have hm := sms_main_send cfg env h
  constructor
  · rw [hm]
    exact batchSend_snd cfg.delay_between env.sends cfg.recipients 0
  · intro hneg
    rw [hm]
    rw [show ((batchSend cfg.delay_between env.sends cfg.recipients 0).fst,
      (batchSend cfg.delay_between env.sends cfg.recipients 0).snd).snd
      = (batchSend cfg.delay_between env.sends cfg.recipients 0).snd from rfl]
    rw [batchSend_snd cfg.delay_between env.sends cfg.recipients 0]
    rw [max_eq_left hneg.le]

/-- Claim C10 witness: three recipients with a negative configured delay
sleep zero twice, between consecutive sends only. -/
theorem batch_sleep_layout_witness :
    (sms_main cfgThreeNeg envThree).2.2 = [0, 0] := by
  have h := (batch_sleep_layout cfgThreeNeg envThree (by decide) (by decide)).2 (by decide)
  exact h.trans (by decide)

/-! ## Claims about the sandboxed executor -/

/-- Claim C1 counterexample: with the default settings and the shipped
whitelist, a timeout override of 0 makes the subprocess wait use the
configured default of 30 seconds, not the clamp-to-1 value the spec
formula gives. -/
theorem executor_clamp_counterexample :
    (execute_command defaultSettings smsRegistry "send_reminder" [] (some 0)
      (.completes 0 "" "")).waited_timeout = some 30 ∧
    spec_clamp_timeout defaultSettings 0 = 1 ∧
    (execute_command defaultSettings smsRegistry "send_reminder" [] (some 0)
      (.completes 0 "" "")).waited_timeout ≠ some (spec_clamp_timeout defaultSettings 0) := by
  decide

/-- Claim C1 as amended: for a resolved and validated command, the timeout
passed to the subprocess wait is the override if given else the default
timeout of the command, clamped to the configured maximum, except that a
value below 1 selects the configured DEFAULT_TIMEOUT (not 1). -/
theorem executor_timeout_amended (st : Settings) (reg : CommandRegistry) (name : String)
    (args : List (String × PyVal)) (tmo : Option Int) (cmd : CommandDefinition)
    (ec : Int) (out err : String)
    (hc : get_command reg name = some cmd)
    (hv : (validate_command_args reg name args).fst = true) :
    (execute_command st reg name args tmo (.completes ec out err)).waited_timeout =
      some (if tmo.getD cmd.timeout_default < 1 then st.DEFAULT_TIMEOUT
            else min (tmo.getD cmd.timeout_default) st.MAX_TIMEOUT) ∧
    (execute_command st reg name args tmo .timesOut).waited_timeout =
      some (if tmo.getD cmd.timeout_default < 1 then st.DEFAULT_TIMEOUT
            else min (tmo.getD cmd.timeout_default) st.MAX_TIMEOUT) := by
  unfold execute_command
  rw [hc]
  simp only [hv, Bool.not_true, Bool.false_eq_true, if_false]
  constructor <;>
  · show some (validate_timeout st (tmo.getD cmd.timeout_default)) = _
    unfold validate_timeout
    congr 1
    rcases lt_or_le (tmo.getD cmd.timeout_default) 1 with hlt | hge
    · rw [if_pos hlt, if_pos hlt]
    · rw [if_neg (not_lt.mpr hge), if_neg (not_lt.mpr hge)]
      rcases le_or_lt (tmo.getD cmd.timeout_default) st.MAX_TIMEOUT with hle | hgt
      · rw [if_neg (not_lt.mpr hle), min_eq_left hle]
      · rw [if_pos hgt, min_eq_right hgt.le]

/-- Claim C1 witness: an override of 0 on the send_reminder command under
default settings resolves to the 30 second default. -/
theorem executor_timeout_amended_witness :
    (execute_command defaultSettings smsRegistry "send_reminder" [] (some 0)
      (.completes 0 "" "")).waited_timeout = some 30 := by
  have h := (executor_timeout_amended defaultSettings smsRegistry "send_reminder" [] (some 0)
    { name := "send_reminder", script_path := "send_reminder_sms.py",
      description := "Send reminder SMS about ongoing outage",
      timeout_default := 60, args_schema := [] }
    0 "" "" (by decide) (by decide)).1
  exact h.trans (by decide)

/-- Claim C5: a child exceeding the effective timeout yields a failed
result with exit code -1, the timeout classification naming the effective
timeout in its error message, and the spawn-kill-teardown action
sequence; killing happens only on the timeout path, and no call ever
spawns more than once. -/
theorem executor_timeout_kill (st : Settings) (reg : CommandRegistry) (name : String)
    (args : List (String × PyVal)) (tmo : Option Int) (cmd : CommandDefinition)
    (hc : get_command reg name = some cmd)
    (hv : (validate_command_args reg name args).fst = true) :
    ((execute_command st reg name args tmo .timesOut).result.success = false ∧
     (execute_command st reg name args tmo .timesOut).result.exit_code = -1 ∧
     (execute_command st reg name args tmo .timesOut).result.error_message =
       some ("Command exceeded timeout of "
         ++ toString (validate_timeout st (tmo.getD cmd.timeout_default)) ++ "s") ∧
     (execute_command st reg name args tmo .timesOut).actions =
       [.spawn, .kill, .waitTeardown]) ∧
    (∀ (st2 : Settings) (reg2 : CommandRegistry) (name2 : String)
       (args2 : List (String × PyVal)) (tmo2 : Option Int) (child : ChildBehavior),
       ProcAction.kill ∈ (execute_command st2 reg2 name2 args2 tmo2 child).actions →
       child = .timesOut) ∧
    (∀ (st2 : Settings) (reg2 : CommandRegistry) (name2 : String)
       (args2 : List (String × PyVal)) (tmo2 : Option Int) (child : ChildBehavior),
       (execute_command st2 reg2 name2 args2 tmo2 child).actions.count .spawn ≤ 1) := by
  refine ⟨?_, ?_, ?_⟩
  · unfold execute_command
    rw [hc]
    simp [hv]
  · intro st2 reg2 name2 args2 tmo2 child hk
    unfold execute_command at hk
    cases hg : get_command reg2 name2 with
    | none => rw [hg] at hk; simp at hk
    | some cmd2 =>
      rw [hg] at hk
      by_cases hv2 : (validate_command_args reg2 name2 args2).fst
      · simp only [hv2, Bool.not_true, Bool.false_eq_true, if_false] at hk
        cases child with
        | completes ec out err => simp at hk
        | timesOut => rfl
        | spawnError msg => simp at hk
      · simp only [Bool.not_eq_true] at hv2
        simp [hv2] at hk
  · intro st2 reg2 name2 args2 tmo2 child
    unfold execute_command
    cases hg : get_command reg2 name2 with
    | none => simp
    | some cmd2 =>
      by_cases hv2 : (validate_command_args reg2 name2 args2).fst
      · simp only [hv2, Bool.not_true, Bool.false_eq_true, if_false]
        cases child <;> dsimp only <;> decide
      · simp only [Bool.not_eq_true] at hv2
        simp [hv2]

/-- Claim C5 witness: a timed-out send_reminder run under default settings
reports the 60 second timeout distinctly and performs spawn, kill and
teardown once. -/
theorem executor_timeout_kill_witness :
    (execute_command defaultSettings smsRegistry "send_reminder" [] none
      .timesOut).result.error_message = some "Command exceeded timeout of 60s" ∧
    (execute_command defaultSettings smsRegistry "send_reminder" [] none
      .timesOut).actions = [.spawn, .kill, .waitTeardown] := by
  have h := (executor_timeout_kill defaultSettings smsRegistry "send_reminder" [] none
    { name := "send_reminder", script_path := "send_reminder_sms.py",
      description := "Send reminder SMS about ongoing outage",
      timeout_default := 60, args_schema := [] }
    (by decide) (by decide)).1
  exact ⟨h.2.2.1.trans (by decide), h.2.2.2⟩

/-- Claim C6: an unregistered command name yields a failed result whose
message names the unknown command, with no process action at all, and any
argument-validation failure likewise performs no process action. -/
theorem executor_no_spawn_on_validation (st : Settings) (reg : CommandRegistry)
    (name : String) (args : List (String × PyVal)) (tmo : Option Int)
    (child : ChildBehavior) :
    (get_command reg name = none →
       (execute_command st reg name args tmo child).actions = [] ∧
       (execute_command st reg name args tmo child).result.success = false ∧
       (execute_command st reg name args tmo child).result.error_message =
         some ("Command '" ++ name ++ "' not found in registry")) ∧
    ((validate_command_args reg name args).fst = false →
       (execute_command st reg name args tmo child).actions = []) := by
  constructor
  · intro h
    unfold execute_command
    rw [h]
    exact ⟨rfl, rfl, rfl⟩
  · intro h
    unfold execute_command
    cases hg : get_command reg name with
    | none => rfl
    | some cmd => simp [h]

/-- Claim C6 witness: an unknown name and an unexpected argument on a
known command both produce a failure without any process action. -/
theorem executor_no_spawn_on_validation_witness :
    (execute_command defaultSettings smsRegistry "wipe_disk" [] none
      (.completes 0 "" "")).actions = [] ∧
    (execute_command defaultSettings smsRegistry "wipe_disk" [] none
      (.completes 0 "" "")).result.error_message =
      some "Command 'wipe_disk' not found in registry" ∧
    (execute_command defaultSettings smsRegistry "send_clear" [("x", .int 1)] none
      (.completes 0 "" "")).actions = [] := by
  have h1 := (executor_no_spawn_on_validation defaultSettings smsRegistry "wipe_disk" [] none
    (.completes 0 "" "")).1 (by decide)
  have h2 := (executor_no_spawn_on_validation defaultSettings smsRegistry "send_clear"
    [("x", .int 1)] none (.completes 0 "" "")).2 (by decide)
  exact ⟨h1.1, h1.2.2.trans (by decide), h2⟩
